import Mathlib

/-!
Shallow embedding of the GrantforgeUSA client (two App.jsx versions plus
config.js/fetcher.js).  JavaScript objects with possibly-absent string
fields are modelled with `Option String`; the JS truthiness fallback
`a || b` (where `undefined`, `null` and `""` are falsy) is modelled by
the `jsOr*` helpers.  Asynchronous network calls are modelled by passing
the fetch outcome (transport failure, HTTP status + body parse result)
as an explicit argument; each handler becomes a pure state transformer
that also reports the request bodies it sent.
-/

namespace GrantForge

/-- JS `a || b` where `a` is a possibly-absent string field
(`undefined`/`null` → `none`) and `b` is a string default. -/
def jsOr : Option String → String → String
  | some s, d => if s = "" then d else s
  | none, d => d

/-- JS `a || b` for two plain strings (`""` is falsy). -/
def jsOrStr (a b : String) : String := if a = "" then b else a

/-- JS `a || b` where both operands may be absent. -/
def jsOrOpt (a b : Option String) : Option String :=
  match a with
  | some s => if s = "" then b else some s
  | none => b

/-- A grant record as delivered by the backend; every field may be absent. -/
structure Grant where
  id : Option String
  title : Option String
  agency : Option String
  url : Option String
  deriving DecidableEq, Repr

/-- The active draft held in state: `{ id, preview, grant }` as built in
`createDraft` (`id: d.draft_id || d.id`, which can still be absent). -/
structure Draft where
  id : Option String
  preview : String
  grant : Grant
  deriving DecidableEq, Repr

/-- The payment-modal target `{id, title}` (or null, modelled by `Option`). -/
structure PayFor where
  id : String
  title : String
  deriving DecidableEq, Repr

/-- The full component state of the fuller client (App.jsx, part_001). -/
structure AppState where
  org : String
  keywords : String
  intakeId : Option String
  grants : List Grant
  draft : Option Draft
  loading : Bool
  error : String
  payFor : Option PayFor
  paidDraftIds : Finset String
  deriving DecidableEq

/-- The three error kinds the spec names for the API client.  `requestFailed`
is the `Error` thrown by the `api` helper on a non-success status (it carries
the path and the status); `networkError` is the runtime error a rejected
`fetch` promise propagates; `decodeError` is the runtime error `res.json()`
propagates on a non-JSON body. -/
inductive ApiError where
  | networkError (msg : String)
  | requestFailed (path : String) (status : Nat)
  | decodeError (msg : String)
  deriving DecidableEq, Repr

/-- The `.message` of the JS error object each `ApiError` stands for.
For `requestFailed` the `api` helper builds it as
`` `API ${path} failed (${res.status})` ``. -/
def ApiError.message : ApiError → String
  | .networkError m => m
  | .requestFailed p st => "API " ++ p ++ " failed (" ++ toString st ++ ")"
  | .decodeError m => m

/-- The outcome of one `fetch`: either the promise rejects (transport
failure) or an HTTP response arrives with a status and a body that either
parses as JSON of the expected shape or fails to parse. -/
inductive FetchOutcome (α : Type) where
  | transportFail (msg : String)
  | response (status : Nat) (body : Except String α)

/-- Model of `res.ok`: status in the inclusive range 200–299. -/
def resOk (status : Nat) : Bool := decide (200 ≤ status ∧ status ≤ 299)

/-- The `api` helper of the fuller client: POST, then
`if (!res.ok) throw new Error(...)`, then `res.json()`.  The non-success
check happens before the body is parsed. -/
def api (α : Type) (path : String) (o : FetchOutcome α) : Except ApiError α :=
  match o with
  | .transportFail m => .error (.networkError m)
  | .response st body =>
      if resOk st then
        match body with
        | .ok v => .ok v
        | .error m => .error (.decodeError m)
      else .error (.requestFailed path st)

/-- Response shape of `/questionnaire` as read by `findGrants`:
`q.id || q.intake_id || null`. -/
structure QuestionnaireResp where
  id : Option String
  intake_id : Option String
  deriving DecidableEq, Repr

/-- Response shape of `/find-grants` as read by `findGrants`:
`g.top || g.items || []`. -/
structure FindGrantsResp where
  top : Option (List Grant)
  items : Option (List Grant)
  deriving DecidableEq, Repr

/-- Response shape of `/draft` as read by `createDraft`. -/
structure DraftResp where
  draft_id : Option String
  id : Option String
  preview : Option String
  deriving DecidableEq, Repr

/-- The `grant` object embedded in the `/draft` request body
(`url: g.url || "https://example.com"`). -/
structure DraftGrantBody where
  id : Option String
  title : Option String
  agency : Option String
  url : String
  deriving DecidableEq, Repr

/-- A request body sent by the fuller client, tagged by endpoint. -/
inductive SentReq where
  | questionnaire (name : String) (keywords : String)
  | findGrantsReq (keywords : String)
  | draftReq (intake_id : Option String) (organization : String) (grant : DraftGrantBody)
  deriving DecidableEq, Repr

/-- Model of `findGrants` of the fuller client as a pure transformer.  It clears
error/draft/grants, sets loading, sends the questionnaire body with the
defaults substituted, stores the intake id, then sends the find-grants
body with the raw `keywords` state, stores the grant list, and on either
failure sets `e.message || "Failed to fetch"`; `finally` clears loading.
The second component lists the request bodies actually sent. -/
def findGrantsRun (s : AppState) (q : Except ApiError QuestionnaireResp)
    (g : Except ApiError FindGrantsResp) : AppState × List SentReq :=
  let s1 : AppState := { s with error := "", draft := none, grants := [], loading := true }
  let qReq := SentReq.questionnaire (jsOrStr s.org "Your Organization")
      (jsOrStr s.keywords "grants")
  match q with
  | .error e =>
      ({ s1 with error := jsOrStr e.message "Failed to fetch", loading := false }, [qReq])
  | .ok qr =>
      let s2 : AppState := { s1 with intakeId := jsOrOpt qr.id qr.intake_id }
      let gReq := SentReq.findGrantsReq s.keywords
      match g with
      | .error e =>
          ({ s2 with error := jsOrStr e.message "Failed to fetch", loading := false },
           [qReq, gReq])
      | .ok gr =>
          ({ s2 with grants := gr.top.getD (gr.items.getD []), loading := false },
           [qReq, gReq])

/-- Model of `createDraft(g)` of the fuller client as a pure transformer: clears the
error, sets loading, sends the draft body (intake id as-is, organization
defaulted, url defaulted to the stable fallback), and on success replaces
the active draft with `{ id: d.draft_id || d.id, preview: d.preview || "",
grant: g }`; on failure sets `e.message || "Failed to create draft"` and
leaves the draft untouched; `finally` clears loading. -/
def createDraftRun (s : AppState) (g : Grant) (d : Except ApiError DraftResp) :
    AppState × List SentReq :=
  let s1 : AppState := { s with error := "", loading := true }
  let req := SentReq.draftReq s.intakeId (jsOrStr s.org "Your Organization")
      { id := g.id, title := g.title, agency := g.agency,
        url := jsOr g.url "https://example.com" }
  match d with
  | .error e =>
      ({ s1 with error := jsOrStr e.message "Failed to create draft", loading := false },
       [req])
  | .ok dr =>
      ({ s1 with
          draft := some { id := jsOrOpt dr.draft_id dr.id,
                          preview := jsOr dr.preview "", grant := g },
          loading := false }, [req])

/-- JS whitespace characters matched by `\s` (the ASCII ones; space, tab,
newline, carriage return, vertical tab, form feed). -/
def isJsWs (c : Char) : Bool :=
  c = ' ' || c = '\t' || c = '\n' || c = '\r' || c = Char.ofNat 11 || c = Char.ofNat 12

/-- Model of `replace(/\s+/g, "_")` on a character list: each maximal run of
whitespace becomes a single underscore.  The Boolean records whether the
previous character belonged to a whitespace run. -/
def collapseWsAux : Bool → List Char → List Char
  | _, [] => []
  | prevWs, c :: rest =>
      if isJsWs c then
        if prevWs then collapseWsAux true rest
        else '_' :: collapseWsAux true rest
      else c :: collapseWsAux false rest

/-- Model of `s.replace(/\s+/g, "_")`. -/
def collapseWs (s : String) : String := String.mk (collapseWsAux false s.toList)

/-- Model of `s.slice(0, n)`: the first `n` characters. -/
def jsSlice (s : String) (n : Nat) : String := String.mk (s.toList.take n)

/-- The placeholder letter template `exportPDF` synthesizes when the draft
has no preview text. -/
def placeholderLetter (orgName title : String) : String :=
  "Dear Review Committee,\n\nThis is a generated placeholder draft for " ++ orgName ++
    " applying to: " ++ title ++
    ".\n\n[Insert problem statement, goals, outcomes, budget summary.]\n\nSincerely,\n" ++
    orgName

/-- The document `exportPDF` produces: heading line, body text, filename. -/
structure ExportDoc where
  heading : String
  body : String
  filename : String
  deriving DecidableEq, Repr

/-- Model of `exportPDF` of the fuller client: no-op without an active draft;
otherwise body is `draft.preview || <placeholder letter>` and the filename
is `` `GFUSA_${(title || "draft").slice(0,40).replace(/\s+/g,"_")}_${(draft.id || "doc").slice(0,8)}.pdf` ``. -/
def exportPDF (s : AppState) : Option ExportDoc :=
  match s.draft with
  | none => none
  | some d =>
      let title := jsOr d.grant.title "Grant Opportunity"
      let orgName := jsOrStr s.org "Your Organization"
      let body := jsOrStr d.preview (placeholderLetter orgName title)
      let filename := "GFUSA_" ++ collapseWs (jsSlice (jsOrStr title "draft") 40) ++ "_" ++
        jsSlice (jsOr d.id "doc") 8 ++ ".pdf"
      some { heading := "GrantForgeUSA – Draft Letter", body := body, filename := filename }

/-- The argument of `openPay`: a grant-or-draft-like object, with an
optional embedded grant (as on a draft). -/
structure PayTarget where
  id : Option String
  title : Option String
  grant : Option Grant
  deriving DecidableEq, Repr

/-- Model of `openPay(gOrDraft)`: resolves `gOrDraft.id || gOrDraft.grant?.id ||
"unknown"` and the analogous title, and opens the modal on them. -/
def openPay (s : AppState) (t : PayTarget) : AppState :=
  let pid := jsOr t.id (jsOr (t.grant.bind Grant.id) "unknown")
  let ptitle := jsOr t.title (jsOr (t.grant.bind Grant.title) "Draft")
  { s with payFor := some { id := pid, title := ptitle } }

/-- Model of `confirmPay()`: if the modal target has a truthy id, add it to the
paid-marker set; always close the modal. -/
def confirmPay (s : AppState) : AppState :=
  match s.payFor with
  | some p =>
      if p.id = "" then { s with payFor := none }
      else { s with paidDraftIds := insert p.id s.paidDraftIds, payFor := none }
  | none => { s with payFor := none }

/-- Every state-mutating user operation of the fuller client, with the
fetch outcomes of the asynchronous ones supplied as data. -/
inductive AppOp where
  | setOrgInput (v : String)
  | setKeywordsInput (v : String)
  | search (q : Except ApiError QuestionnaireResp) (g : Except ApiError FindGrantsResp)
  | makeDraft (g : Grant) (d : Except ApiError DraftResp)
  | exportActive
  | pay (t : PayTarget)
  | payConfirm
  | payClose

/-- One application step: how each operation transforms the state.
`exportActive` reads state but never writes it. -/
def step (op : AppOp) (s : AppState) : AppState :=
  match op with
  | .setOrgInput v => { s with org := v }
  | .setKeywordsInput v => { s with keywords := v }
  | .search q g => (findGrantsRun s q g).1
  | .makeDraft g d => (createDraftRun s g d).1
  | .exportActive => s
  | .pay t => openPay s t
  | .payConfirm => confirmPay s
  | .payClose => { s with payFor := none }

/-- A whole session: a sequence of steps from a starting state. -/
def steps (ops : List AppOp) (s : AppState) : AppState :=
  ops.foldl (fun st op => step op st) s

/-! ### The minimal v1.1 client (part_000 plus config.js/fetcher.js) -/

/-- A result row as rendered by the minimal client. -/
structure MiniGrant where
  title : Option String
  amount : Option String
  deadline : Option String
  fit : Option String
  deriving DecidableEq, Repr

/-- Response shape read by `handleFind`: `data.results || []`. -/
structure ShortlistResp where
  results : Option (List MiniGrant)
  deriving DecidableEq, Repr

/-- A JS runtime error as seen by a `catch` block: an `Error` thrown by
this code, a `TypeError` from a failed `fetch`, or the parse error from
`r.json()` on a non-JSON body. -/
inductive JsError where
  | thrown (msg : String)
  | netFail (msg : String)
  | decodeFail (msg : String)
  deriving DecidableEq, Repr

/-- The path of `ENDPOINTS.shortlist` relative to `API_BASE` (config.js). -/
def shortlistPath : String := "/questionnaire"

/-- Model of `findGrants` of fetcher.js: POST to `ENDPOINTS.shortlist`, throw
`` `Shortlist ${r.status}` `` on a non-success status, else `r.json()`. -/
def fetcherFindGrants (o : FetchOutcome ShortlistResp) : Except JsError ShortlistResp :=
  match o with
  | .transportFail m => .error (.netFail m)
  | .response st body =>
      if resOk st then
        match body with
        | .ok v => .ok v
        | .error m => .error (.decodeFail m)
      else .error (.thrown ("Shortlist " ++ toString st))

/-- Component state of the minimal client. -/
structure MiniState where
  org : String
  kw : String
  status : String
  results : List MiniGrant
  deriving DecidableEq, Repr

/-- A request body sent by the minimal client. -/
inductive MiniReq where
  | shortlist (organization : String) (keywords : String)
  deriving DecidableEq, Repr

/-- Model of `handleFind` of the minimal client: sets a progress status, clears
results, calls `findGrants(org || "Your Organization", kw || "community")`,
and on success stores `data.results || []` and the status
`` `Found ${data.results?.length || 0} item(s)` ``; on any failure the
status is the fixed `"Error: Failed to fetch"`. -/
def handleFindRun (s : MiniState) (o : FetchOutcome ShortlistResp) : MiniState × List MiniReq :=
  let s1 : MiniState := { s with status := "Finding grants…", results := [] }
  let req := MiniReq.shortlist (jsOrStr s.org "Your Organization") (jsOrStr s.kw "community")
  match fetcherFindGrants o with
  | .ok data =>
      ({ s1 with results := data.results.getD [],
                 status := "Found " ++ toString (data.results.getD []).length ++ " item(s)" },
       [req])
  | .error _ => ({ s1 with status := "Error: Failed to fetch" }, [req])

/-! ### Concrete fixtures used by witnesses and counterexamples -/

/-- A sample grant with no url. -/
def grantA : Grant :=
  { id := some "g1", title := some "STEM Fund", agency := some "NSF", url := none }

/-- A second sample grant. -/
def grantB : Grant :=
  { id := some "g2", title := some "Community Grant", agency := none,
    url := some "https://a.example" }

/-- A third sample grant with most fields absent. -/
def grantC : Grant := { id := some "g3", title := none, agency := none, url := none }

/-- A three-element server result list. -/
def demoGrants : List Grant := [grantA, grantB, grantC]

/-- The initial component state of the fuller client. -/
def initState : AppState :=
  { org := "", keywords := "", intakeId := none, grants := [], draft := none,
    loading := false, error := "", payFor := none, paidDraftIds := ∅ }

/-- State after typing organization "Acme" and leaving keywords empty. -/
def acmeEmptyKw : AppState := { initState with org := "Acme" }

/-- A successful questionnaire response carrying an id. -/
def qRespOk : QuestionnaireResp := { id := some "intake-1", intake_id := none }

/-- A successful find-grants response carrying `top`. -/
def gRespOk : FindGrantsResp := { top := some demoGrants, items := none }

/-- A successful draft response. -/
def dRespOk : DraftResp :=
  { draft_id := some "draft-12345678", id := none, preview := none }

/-- An active draft with an empty preview, as stored after `dRespOk`. -/
def draftW : Draft := { id := some "draft-12345678", preview := "", grant := grantA }

/-- A state holding `draftW` as the active draft. -/
def draftState : AppState := { acmeEmptyKw with draft := some draftW }

/-- Initial state of the minimal client. -/
def miniInit : MiniState := { org := "", kw := "", status := "", results := [] }

/-- A shortlist response with one result row. -/
def miniResp : ShortlistResp :=
  { results := some [{ title := some "T", amount := none, deadline := none, fit := none }] }

/-- Substring test used to reason about error-message contents: does
`needle` occur as a prefix of `hay`? -/
def prefixChars : List Char → List Char → Bool
  | [], _ => true
  | _ :: _, [] => false
  | a :: as, b :: bs => a = b && prefixChars as bs

/-- Does `n` occur contiguously anywhere inside the second list? -/
def subChars (n : List Char) : List Char → Bool
  | [] => n.isEmpty
  | c :: rest => prefixChars n (c :: rest) || subChars n rest

/-- Does `needle` occur contiguously inside `hay`? -/
def strHasSub (hay needle : String) : Bool := subChars needle.toList hay.toList

/-- Did the two-step search fail at one of its steps? -/
def searchFails : Except ApiError QuestionnaireResp → Except ApiError FindGrantsResp → Bool
  | .error _, _ => true
  | .ok _, .error _ => true
  | .ok _, .ok _ => false

/-! ### Helper lemmas -/

theorem jsOrStr_ne_empty (a b : String) (hb : b ≠ "") : jsOrStr a b ≠ "" := by
  unfold jsOrStr
  split
  · exact hb
  · assumption

theorem jsOr_ne_empty (a : Option String) (b : String) (hb : b ≠ "") : jsOr a b ≠ "" := by
  cases a with
  | none => exact hb
  | some s =>
      show (if s = "" then b else s) ≠ ""
      split
      · exact hb
      · assumption

theorem jsOrStr_of_ne (a b : String) (ha : a ≠ "") : jsOrStr a b = a := by
  unfold jsOrStr
  split
  · exact absurd (by assumption) ha
  · rfl

theorem findGrantsRun_paid (s : AppState) (q : Except ApiError QuestionnaireResp)
    (g : Except ApiError FindGrantsResp) :
    (findGrantsRun s q g).1.paidDraftIds = s.paidDraftIds := by
  cases q <;> cases g <;> rfl

theorem createDraftRun_paid (s : AppState) (g : Grant) (d : Except ApiError DraftResp) :
    (createDraftRun s g d).1.paidDraftIds = s.paidDraftIds := by
  cases d <;> rfl

theorem step_paid_mono (op : AppOp) (s : AppState) :
    s.paidDraftIds ⊆ (step op s).paidDraftIds := by
  cases op with
  | search q g => rw [step, findGrantsRun_paid]
  | makeDraft g d => rw [step, createDraftRun_paid]
  | payConfirm =>
      show s.paidDraftIds ⊆ (confirmPay s).paidDraftIds
      unfold confirmPay
      rcases h : s.payFor with _ | p
      · exact Finset.Subset.refl _
      · dsimp only
        split
        · exact Finset.Subset.refl _
        · exact Finset.subset_insert _ _
  | _ => exact Finset.Subset.refl _

/-! ### Claims -/

/-- C1 counterexample: submitting a search with organization "Acme" and
empty keywords sends the questionnaire body with both defaults
substituted, but the grant-search request body carries the raw empty
`keywords` string — not the documented default. -/
theorem search_sends_empty_keywords_cex :
    (findGrantsRun acmeEmptyKw (.ok qRespOk) (.ok gRespOk)).2 =
      [SentReq.questionnaire "Acme" "grants", SentReq.findGrantsReq ""] ∧
    SentReq.findGrantsReq "" ∈ (findGrantsRun acmeEmptyKw (.ok qRespOk) (.ok gRespOk)).2 := by
  constructor
  · rfl
  · decide

/-- C1 (amended): the questionnaire request always carries the defaults
"Your Organization" / "grants" when the fields are empty (so its fields
are never empty), but the fuller client's grant-search request carries
the `keywords` state verbatim, empty included; the minimal client's
single search request substitutes "Your Organization" / "community". -/
theorem search_request_defaults (s : AppState) (q : Except ApiError QuestionnaireResp)
    (g : Except ApiError FindGrantsResp) (ms : MiniState) (o : FetchOutcome ShortlistResp) :
    ((findGrantsRun s q g).2 =
        [SentReq.questionnaire (jsOrStr s.org "Your Organization")
          (jsOrStr s.keywords "grants")] ∨
     (findGrantsRun s q g).2 =
        [SentReq.questionnaire (jsOrStr s.org "Your Organization")
          (jsOrStr s.keywords "grants"),
         SentReq.findGrantsReq s.keywords]) ∧
    jsOrStr s.org "Your Organization" ≠ "" ∧ jsOrStr s.keywords "grants" ≠ "" ∧
    (handleFindRun ms o).2 =
      [MiniReq.shortlist (jsOrStr ms.org "Your Organization") (jsOrStr ms.kw "community")] := by
  refine ⟨?_, jsOrStr_ne_empty _ _ (by decide), jsOrStr_ne_empty _ _ (by decide), ?_⟩
  · cases q with
    | error e => exact Or.inl rfl
    | ok qr =>
        cases g with
        | error e => exact Or.inr rfl
        | ok gr => exact Or.inr rfl
  · rcases h : fetcherFindGrants o with v | e <;> simp [handleFindRun, h]

/-- C2: when the search fails at the questionnaire step or at the
grant-search step, no grant list is applied (it stays the empty list the
operation wrote before calling out), no draft is set, and the error shown
is the failure's message or the generic "Failed to fetch". -/
theorem search_failure_read_then_apply (s : AppState)
    (q : Except ApiError QuestionnaireResp) (g : Except ApiError FindGrantsResp) :
    (∀ e, q = .error e →
      (findGrantsRun s q g).1.grants = [] ∧ (findGrantsRun s q g).1.draft = none ∧
      ((findGrantsRun s q g).1.error = e.message ∨
        (findGrantsRun s q g).1.error = "Failed to fetch")) ∧
    (∀ qr e, q = .ok qr → g = .error e →
      (findGrantsRun s q g).1.grants = [] ∧ (findGrantsRun s q g).1.draft = none ∧
      ((findGrantsRun s q g).1.error = e.message ∨
        (findGrantsRun s q g).1.error = "Failed to fetch")) := by
  constructor
  · rintro e rfl
    refine ⟨rfl, rfl, ?_⟩
    show jsOrStr e.message "Failed to fetch" = e.message ∨
      jsOrStr e.message "Failed to fetch" = "Failed to fetch"
    unfold jsOrStr
    split
    · right; rfl
    · left; rfl
  · rintro qr e rfl rfl
    refine ⟨rfl, rfl, ?_⟩
    show jsOrStr e.message "Failed to fetch" = e.message ∨
      jsOrStr e.message "Failed to fetch" = "Failed to fetch"
    unfold jsOrStr
    split
    · right; rfl
    · left; rfl

/-- Witness for `search_failure_read_then_apply`: a concrete run failing
at the second step with a 500 status. -/
theorem search_failure_read_then_apply_witness :
    (findGrantsRun acmeEmptyKw (.ok qRespOk)
      (.error (.requestFailed "/find-grants" 500))).1.grants = [] ∧
    (findGrantsRun acmeEmptyKw (.ok qRespOk)
      (.error (.requestFailed "/find-grants" 500))).1.draft = none ∧
    ((findGrantsRun acmeEmptyKw (.ok qRespOk)
      (.error (.requestFailed "/find-grants" 500))).1.error =
        (ApiError.requestFailed "/find-grants" 500).message ∨
     (findGrantsRun acmeEmptyKw (.ok qRespOk)
      (.error (.requestFailed "/find-grants" 500))).1.error = "Failed to fetch") :=
  (search_failure_read_then_apply acmeEmptyKw (.ok qRespOk)
    (.error (.requestFailed "/find-grants" 500))).2 qRespOk
    (.requestFailed "/find-grants" 500) rfl rfl

/-- C5: every failed search run ends with an empty grant list and no
active draft, whatever grants or draft the state held before. -/
theorem search_failure_clears_state (s : AppState)
    (q : Except ApiError QuestionnaireResp) (g : Except ApiError FindGrantsResp)
    (h : searchFails q g = true) :
    (findGrantsRun s q g).1.grants = [] ∧ (findGrantsRun s q g).1.draft = none := by
  cases q with
  | error e => exact ⟨rfl, rfl⟩
  | ok qr =>
      cases g with
      | error e => exact ⟨rfl, rfl⟩
      | ok gr => simp [searchFails] at h

/-- Witness for `search_failure_clears_state`: a first-step network
failure on a state that still holds grants and an active draft. -/
theorem search_failure_clears_state_witness :
    searchFails (Except.error (.networkError "Failed to fetch"))
      (Except.ok gRespOk) = true ∧
    (findGrantsRun { draftState with grants := demoGrants }
      (.error (.networkError "Failed to fetch")) (.ok gRespOk)).1.grants = [] ∧
    (findGrantsRun { draftState with grants := demoGrants }
      (.error (.networkError "Failed to fetch")) (.ok gRespOk)).1.draft = none :=
  ⟨by decide,
   search_failure_clears_state { draftState with grants := demoGrants }
     (.error (.networkError "Failed to fetch")) (.ok gRespOk) (by decide)⟩

/-- C3 counterexample: a fully successful search in the fuller client
returns the 3-element server list, yet its status/error string — the only
message the component holds — stays empty rather than reporting "Found 3
item(s)". -/
theorem search_success_no_count_message_cex :
    (findGrantsRun acmeEmptyKw (.ok qRespOk) (.ok gRespOk)).1.grants = demoGrants ∧
    demoGrants.length = 3 ∧
    (findGrantsRun acmeEmptyKw (.ok qRespOk) (.ok gRespOk)).1.error = "" ∧
    (findGrantsRun acmeEmptyKw (.ok qRespOk) (.ok gRespOk)).1.error ≠ "Found 3 item(s)" := by
  refine ⟨rfl, rfl, rfl, ?_⟩
  decide

/-- C3 (amended): on success of both calls the fuller client replaces the
grant list with exactly the server-provided list (`top`, else `items`,
else empty) and leaves its message string empty; the count-bearing status
"Found N item(s)" is set by the minimal client's `handleFind`, which
issues a single backend call and also replaces its result list with the
server-provided one. -/
theorem search_success_replaces_list_and_count :
    (∀ (s : AppState) (qr : QuestionnaireResp) (gr : FindGrantsResp),
      (findGrantsRun s (.ok qr) (.ok gr)).1.grants = gr.top.getD (gr.items.getD []) ∧
      (findGrantsRun s (.ok qr) (.ok gr)).1.error = "") ∧
    (∀ (ms : MiniState) (resp : ShortlistResp) (st : Nat), resOk st = true →
      (handleFindRun ms (.response st (.ok resp))).1.results = resp.results.getD [] ∧
      (handleFindRun ms (.response st (.ok resp))).1.status =
        "Found " ++ toString (resp.results.getD []).length ++ " item(s)") := by
  constructor
  · intro s qr gr
    exact ⟨rfl, rfl⟩
  · intro ms resp st hok
    have h : fetcherFindGrants (.response st (.ok resp)) = .ok resp := by
      simp [fetcherFindGrants, hok]
    constructor <;> simp [handleFindRun, h]

/-- Witness for `search_success_replaces_list_and_count`: a concrete
200-status run of the minimal client with a one-element result list. -/
theorem search_success_replaces_list_and_count_witness :
    (handleFindRun miniInit (.response 200 (.ok miniResp))).1.results =
      miniResp.results.getD [] ∧
    (handleFindRun miniInit (.response 200 (.ok miniResp))).1.status =
      "Found " ++ toString (miniResp.results.getD []).length ++ " item(s)" :=
  search_success_replaces_list_and_count.2 miniInit miniResp 200 (by decide)

/-- C4 counterexample: the v1.1 fetcher's non-success error for the
shortlist call is the thrown `Error("Shortlist 500")`, whose message does
not contain the request path "/questionnaire". -/
theorem fetcher_error_lacks_path_cex :
    fetcherFindGrants (.response 500 (.ok miniResp)) =
      .error (.thrown "Shortlist 500") ∧
    strHasSub "Shortlist 500" shortlistPath = false := by
  constructor
  · rfl
  · decide

/-- C4 (amended): the fuller client's `api` helper distinguishes the three
kinds — any non-success status yields `requestFailed` carrying the path
and status (and its message embeds the path), a transport failure yields
`networkError`, and a non-JSON body on a success status yields
`decodeError`; the v1.1 fetcher instead throws `Error("Shortlist " +
status)` on a non-success status, carrying the status but not the path. -/
theorem api_error_kinds :
    (∀ (p : String) (st : Nat) (b : Except String QuestionnaireResp), resOk st = false →
      api QuestionnaireResp p (.response st b) = .error (.requestFailed p st)) ∧
    (∀ p m : String, api QuestionnaireResp p (.transportFail m) =
      .error (.networkError m)) ∧
    (∀ (p m : String) (st : Nat), resOk st = true →
      api QuestionnaireResp p (.response st (.error m)) = .error (.decodeError m)) ∧
    (∀ (p : String) (st : Nat), ∃ pre post : String,
      (ApiError.requestFailed p st).message = pre ++ p ++ post) ∧
    (∀ (st : Nat) (b : Except String ShortlistResp), resOk st = false →
      fetcherFindGrants (.response st b) = .error (.thrown ("Shortlist " ++ toString st))) := by
  refine ⟨?_, ?_, ?_, ?_, ?_⟩
  · intro p st b hst
    simp [api, hst]
  · intro p m
    rfl
  · intro p m st hst
    simp [api, hst]
  · intro p st
    refine ⟨"API ", " failed (" ++ toString st ++ ")", ?_⟩
    show "API " ++ p ++ " failed (" ++ toString st ++ ")" =
      "API " ++ p ++ (" failed (" ++ toString st ++ ")")
    simp [String.append_assoc]
  · intro st b hst
    simp [fetcherFindGrants, hst]

/-- Witness for `api_error_kinds`: the concrete classification of a 404
on the questionnaire path. -/
theorem api_error_kinds_witness :
    api QuestionnaireResp "/questionnaire" (.response 404 (.ok qRespOk)) =
      .error (.requestFailed "/questionnaire" 404) :=
  api_error_kinds.1 "/questionnaire" 404 (.ok qRespOk) (by decide)

/-- C6: when the draft call fails, the active draft is exactly what it was
before the invocation, and the error string is the failure's message
(every error this client can see carries a non-empty message). -/
theorem draft_failure_preserves_draft (s : AppState) (g : Grant) (e : ApiError)
    (hm : e.message ≠ "") :
    (createDraftRun s g (.error e)).1.draft = s.draft ∧
    (createDraftRun s g (.error e)).1.error = e.message := by
  refine ⟨rfl, ?_⟩
  show jsOrStr e.message "Failed to create draft" = e.message
  exact jsOrStr_of_ne _ _ hm

/-- Witness for `draft_failure_preserves_draft`: a 500 on the draft call
against a state that already holds an active draft. -/
theorem draft_failure_preserves_draft_witness :
    (ApiError.requestFailed "/draft" 500).message ≠ "" ∧
    (createDraftRun draftState grantB
      (.error (.requestFailed "/draft" 500))).1.draft = draftState.draft ∧
    (createDraftRun draftState grantB
      (.error (.requestFailed "/draft" 500))).1.error =
      (ApiError.requestFailed "/draft" 500).message :=
  ⟨by decide,
   draft_failure_preserves_draft draftState grantB (.requestFailed "/draft" 500) (by decide)⟩

/-- C7: the draft call is issued even when the intake reference is null —
the request body carries `intake_id: null`, the defaulted organization,
and the grant's fields with the stable fallback url substituted when the
grant has none — and on success the stored active draft's grant is exactly
the supplied grant, its id being the server's `draft_id` falling back to
`id`. -/
theorem draft_request_and_grant_attach (s : AppState) (g : Grant) (dr : DraftResp)
    (hi : s.intakeId = none) (hu : g.url = none) :
    (createDraftRun s g (.ok dr)).2 =
      [SentReq.draftReq none (jsOrStr s.org "Your Organization")
        { id := g.id, title := g.title, agency := g.agency,
          url := "https://example.com" }] ∧
    ∃ d : Draft, (createDraftRun s g (.ok dr)).1.draft = some d ∧ d.grant = g ∧
      d.id = jsOrOpt dr.draft_id dr.id := by
  constructor
  · show [SentReq.draftReq s.intakeId (jsOrStr s.org "Your Organization")
      { id := g.id, title := g.title, agency := g.agency,
        url := jsOr g.url "https://example.com" }] = _
    rw [hi, hu]
    rfl
  · exact ⟨_, rfl, rfl, rfl⟩

/-- Witness for `draft_request_and_grant_attach`: creating a draft for the
url-less grant `grantA` from the initial state (null intake reference). -/
theorem draft_request_and_grant_attach_witness :
    (createDraftRun acmeEmptyKw grantA (.ok dRespOk)).2 =
      [SentReq.draftReq none (jsOrStr acmeEmptyKw.org "Your Organization")
        { id := grantA.id, title := grantA.title, agency := grantA.agency,
          url := "https://example.com" }] ∧
    ∃ d : Draft, (createDraftRun acmeEmptyKw grantA (.ok dRespOk)).1.draft = some d ∧
      d.grant = grantA ∧ d.id = jsOrOpt dRespOk.draft_id dRespOk.id :=
  draft_request_and_grant_attach acmeEmptyKw grantA dRespOk rfl rfl

/-- A payment target carrying no identifier at all. -/
def noIdTarget : PayTarget := { id := none, title := some "Mystery", grant := none }

/-- C8: marking paid on a target with no grant id and no embedded grant
resolves the sentinel "unknown" and records it in the paid-marker set on
confirmation, and every identifier in the paid-marker set survives every
operation of the application for the rest of the session. -/
theorem paid_markers_unknown_and_monotone :
    (∀ (s : AppState) (t : PayTarget), t.id = none → t.grant = none →
      "unknown" ∈ (step .payConfirm (step (.pay t) s)).paidDraftIds) ∧
    (∀ (ops : List AppOp) (s : AppState) (x : String),
      x ∈ s.paidDraftIds → x ∈ (steps ops s).paidDraftIds) := by
  constructor
  · intro s t ht hg
    show "unknown" ∈ (confirmPay (openPay s t)).paidDraftIds
    simp [openPay, confirmPay, ht, hg, jsOr]
  · intro ops
    induction ops with
    | nil => intro s x hx; exact hx
    | cons op rest ih =>
        intro s x hx
        exact ih (step op s) x (step_paid_mono op s hx)

/-- Witness for `paid_markers_unknown_and_monotone`: confirming a payment
on `noIdTarget` from the initial state records "unknown", and that marker
survives a later search and draft creation. -/
theorem paid_markers_unknown_and_monotone_witness :
    "unknown" ∈ (step .payConfirm (step (.pay noIdTarget) initState)).paidDraftIds ∧
    "unknown" ∈ (steps [.search (.ok qRespOk) (.ok gRespOk),
        .makeDraft grantA (.ok dRespOk)]
      (step .payConfirm (step (.pay noIdTarget) initState))).paidDraftIds :=
  ⟨paid_markers_unknown_and_monotone.1 initState noIdTarget rfl rfl,
   paid_markers_unknown_and_monotone.2 _ _ "unknown"
     (paid_markers_unknown_and_monotone.1 initState noIdTarget rfl rfl)⟩

/-- C9: exporting is a no-op without an active draft; with an active draft
whose preview is empty, the document body is the placeholder letter
containing the organization name and the grant title verbatim, and the
filename is the fixed prefix, the first 40 characters of the title with
whitespace runs collapsed to underscores, the first 8 characters of the
draft id, and the fixed extension. -/
theorem export_draft_template_and_filename (s : AppState) (d : Draft)
    (hd : s.draft = some d) (hp : d.preview = "") :
    (∀ s2 : AppState, s2.draft = none → exportPDF s2 = none) ∧
    ∃ doc : ExportDoc, exportPDF s = some doc ∧
      doc.body = placeholderLetter (jsOrStr s.org "Your Organization")
        (jsOr d.grant.title "Grant Opportunity") ∧
      (∃ p1 p2 p3 : String, doc.body =
        p1 ++ jsOrStr s.org "Your Organization" ++ p2 ++
          jsOr d.grant.title "Grant Opportunity" ++ p3) ∧
      doc.filename = "GFUSA_" ++
        collapseWs (jsSlice (jsOr d.grant.title "Grant Opportunity") 40) ++ "_" ++
        jsSlice (jsOr d.id "doc") 8 ++ ".pdf" := by
  have htitle : jsOr d.grant.title "Grant Opportunity" ≠ "" :=
    jsOr_ne_empty _ _ (by decide)
  refine ⟨?_, ?_⟩
  · intro s2 h2
    simp [exportPDF, h2]
  · refine ⟨ExportDoc.mk "GrantForgeUSA – Draft Letter"
        (placeholderLetter (jsOrStr s.org "Your Organization")
          (jsOr d.grant.title "Grant Opportunity"))
        ("GFUSA_" ++
          collapseWs (jsSlice (jsOr d.grant.title "Grant Opportunity") 40) ++ "_" ++
          jsSlice (jsOr d.id "doc") 8 ++ ".pdf"), ?_, rfl, ?_, rfl⟩
    · simp [exportPDF, hd, hp, jsOrStr, htitle]
    · exact ⟨"Dear Review Committee,\n\nThis is a generated placeholder draft for ",
        " applying to: ",
        ".\n\n[Insert problem statement, goals, outcomes, budget summary.]\n\nSincerely,\n" ++
          jsOrStr s.org "Your Organization",
        by simp [placeholderLetter, String.append_assoc]⟩

/-- Witness for `export_draft_template_and_filename`: exporting the
concrete preview-less draft `draftW` from `draftState`. -/
theorem export_draft_template_and_filename_witness :
    ∃ doc : ExportDoc, exportPDF draftState = some doc ∧
      doc.body = placeholderLetter (jsOrStr draftState.org "Your Organization")
        (jsOr draftW.grant.title "Grant Opportunity") ∧
      (∃ p1 p2 p3 : String, doc.body =
        p1 ++ jsOrStr draftState.org "Your Organization" ++ p2 ++
          jsOr draftW.grant.title "Grant Opportunity" ++ p3) ∧
      doc.filename = "GFUSA_" ++
        collapseWs (jsSlice (jsOr draftW.grant.title "Grant Opportunity") 40) ++ "_" ++
        jsSlice (jsOr draftW.id "doc") 8 ++ ".pdf" :=
  (export_draft_template_and_filename draftState draftW rfl rfl).2

/-- C10: every completed run of submit-search and of create-draft, whether
it succeeded or failed at any step, ends with the loading flag false. -/
theorem loading_cleared_on_completion (s : AppState)
    (q : Except ApiError QuestionnaireResp) (g : Except ApiError FindGrantsResp)
    (gr : Grant) (d : Except ApiError DraftResp) :
    (findGrantsRun s q g).1.loading = false ∧
    (createDraftRun s gr d).1.loading = false := by
  constructor
  · cases q <;> cases g <;> rfl
  · cases d <;> rfl

end GrantForge
